import Mathlib

/-!
Shallow embedding of the prediction-validation worker (`src/validator.ts`,
`src/utils.ts`, `src/search/searchapi.ts`, `src/db/schema.ts`, the worker
entry point, and the `validation_result` migration DDL) together with
theorems settling the specification claims.

Strings are modelled as Lean `String` values; all character-level operations
are defined on the underlying `List Char` so that lengths and slices obey
ordinary list lemmas.  JavaScript `number` values holding integers are
modelled as `Int`; Postgres `decimal` columns (delivered to the program as
strings and converted with `Number(...)`) are modelled as `ℚ`.  Timestamps
compare by their epoch value and are modelled as `Int`.  Nullable columns
are `Option` values.
-/

/-! ## JavaScript string primitives used by the sources -/

/-- JavaScript truthiness of a nullable string: `null`/`undefined` and the
empty string are falsy. -/
def jsTruthyStr : Option String → Bool
  | none => false
  | some s => s ≠ ""

/-- Characters stripped by `String.prototype.trim` (ASCII subset; the
sources only ever trim LLM output). -/
def jsWhitespace (c : Char) : Bool :=
  c = ' ' ∨ c = '\t' ∨ c = '\n' ∨ c = '\r'

/-- Embedding of `String.prototype.trim`. -/
def jsTrim (s : String) : String :=
  ⟨((s.data.dropWhile jsWhitespace).reverse.dropWhile jsWhitespace).reverse⟩

/-- Auxiliary for substring containment: does `n` occur as a contiguous
sub-list of the second argument? -/
def subListOf (n : List Char) : List Char → Bool
  | [] => n.isEmpty
  | c :: t => n.isPrefixOf (c :: t) || subListOf n t

/-- Embedding of `text.toLowerCase()` (ASCII case folding, which is all the
keyword scan in `shouldValidatePrediction` relies on). -/
def lowerStr (s : String) : String :=
  ⟨s.data.map Char.toLower⟩

/-- Embedding of `hay.includes(needle)`: substring containment. -/
def includesStr (hay needle : String) : Bool :=
  subListOf needle.data hay.data

/-- Embedding of `s.slice(0, n)` for a nonnegative count `n`. -/
def takeChars (s : String) (n : Nat) : String :=
  ⟨s.data.take n⟩

/-- Embedding of `s.slice(0, fin)` where `fin` may be negative (a negative
end index counts from the end of the string, clamped at 0), as used by
`truncateText` in `src/utils.ts`. -/
def jsSlice0 (s : String) (fin : Int) : String :=
  ⟨s.data.take (if fin < 0 then ((s.length : Int) + fin).toNat else fin.toNat)⟩

/-- Embedding of `truncateText` from `src/utils.ts`:
`if (text.length <= maxLength) return text; return text.slice(0, maxLength - 3) + "...";` -/
def truncateText (text : String) (maxLength : Int) : String :=
  if (text.length : Int) ≤ maxLength then text
  else jsSlice0 text (maxLength - 3) ++ "..."

/-! Basic string-length facts for the embedding. -/

theorem strMk_length (l : List Char) : (String.mk l).length = l.length := rfl

theorem strLength_append (s t : String) :
    (s ++ t).length = s.length + t.length := by
  show (s.data ++ t.data).length = s.data.length + t.data.length
  simp

theorem jsSlice0_length (s : String) (fin : Int) :
    (jsSlice0 s fin).length =
      min (if fin < 0 then ((s.length : Int) + fin).toNat else fin.toNat) s.length := by
  show (s.data.take _).length = _
  rw [List.length_take]
  rfl

theorem takeChars_length (s : String) (n : Nat) :
    (takeChars s n).length = min n s.length := by
  show (s.data.take n).length = _
  rw [List.length_take]
  rfl

theorem dots_length : ("..." : String).length = 3 := rfl

/-- C10: for `maxLength ≥ 3`, `truncateText` returns the text unchanged when
it already fits, otherwise the first `maxLength - 3` characters followed by
`"..."`, and in both cases the result has length at most `maxLength`; the
hypothesis `maxLength ≥ 3` is required, since e.g. `maxLength = 2` on a
6-character text returns an 8-character string. -/
theorem C10_thm :
    (∀ (text : String) (maxLength : Int), 3 ≤ maxLength →
      (((text.length : Int) ≤ maxLength → truncateText text maxLength = text) ∧
        ((truncateText text maxLength).length : Int) ≤ maxLength ∧
        (maxLength < (text.length : Int) →
          truncateText text maxLength = takeChars text (maxLength - 3).toNat ++ "..."))) ∧
    (2 : Int) < ((truncateText ⟨List.replicate 6 'a'⟩ 2).length : Int) := by
  constructor
  · intro text maxLength h3
    refine ⟨?_, ?_, ?_⟩
    · intro hle
      simp only [truncateText, if_pos hle]
    · by_cases hle : (text.length : Int) ≤ maxLength
      · simpa only [truncateText, if_pos hle] using hle
      · have hc : ¬ (maxLength - 3 < 0) := by omega
        simp only [truncateText, if_neg hle, strLength_append, jsSlice0_length,
          if_neg hc, dots_length]
        have hlt := lt_of_not_le hle
        push_cast
        omega
    · intro hlt
      have hle := not_le.mpr hlt
      have hc : ¬ (maxLength - 3 < 0) := by omega
      simp only [truncateText, if_neg hle, jsSlice0, if_neg hc, takeChars]
  · decide

/-- Witness for C10 at `text = "abcdef"`, `maxLength = 5`. -/
theorem C10_witness :
    ((truncateText "abcdef" 5).length : Int) ≤ 5 :=
  (C10_thm.1 "abcdef" 5 (by decide)).2.1

/-! ## Configuration constants (`VALIDATION_CONFIG` in `src/validator.ts`) -/

def INITIAL_QUERIES : Nat := 2

def RESULTS_PER_QUERY : Nat := 10

def MAX_TOTAL_RESULTS : Nat := 30

def MAX_REFINEMENT_ITERATIONS : Nat := 1

def FILTER_VALIDATION_CONFIDENCE_MIN : ℚ := mkRat 85 100

def PREDICTION_QUALITY_MIN : Int := 30

def LLM_CONFIDENCE_MIN : ℚ := mkRat 5 10

def VAGUENESS_MAX : ℚ := mkRat 8 10

def TRUE_DEFINITIVE_MIN : Int := 9

def FALSE_DEFINITIVE_MAX : Int := 2

/-! ## Data model (`src/db/schema.ts`)

Only the columns read by the validator core are modelled; identifiers are
strings (uuids), timestamps are epoch integers, decimals are rationals. -/

/-- Row of `parsed_prediction` (the columns `validator.ts` reads). -/
structure ParsedPredictionR where
  id : String
  predictionQuality : Option Int
  llmConfidence : Option ℚ
  vagueness : Option ℚ
  deriving DecidableEq

/-- Row of `parsed_prediction_details` (the columns `validator.ts` reads). -/
structure ParsedPredictionDetailsR where
  parsedPredictionId : String
  predictionContext : Option String
  timeframeStatus : Option String
  timeframeStartUtc : Option Int
  timeframeEndUtc : Option Int
  filterValidationConfidence : Option ℚ
  filterValidationReasoning : Option String
  deriving DecidableEq

/-- The joined tuple handled by the validator (`PredictionToValidate`);
the scraped-tweet component is only used for goal extraction, which the
embedding abstracts (see `Env.extractedGoalText`), so it is not carried. -/
structure PredictionToValidateR where
  parsedPrediction : ParsedPredictionR
  parsedPredictionDetails : ParsedPredictionDetailsR
  deriving DecidableEq

/-- Result of the in-memory pre-filter (`PreValidationCheck`). -/
structure PreValidationCheck where
  shouldValidate : Bool
  reason : Option String
  deriving DecidableEq

/-! ## In-memory pre-filter (`shouldValidatePrediction`, validator.ts 89-208) -/

/-- The fixed keyword list of Check 3. -/
def invalidKeywords : List String :=
  [ "not a prediction",
    "not a valid prediction",
    "no prediction",
    "invalid prediction",
    "not making a prediction",
    "does not contain a prediction",
    "doesn\x27t contain a prediction",
    "no clear prediction",
    "lacks a prediction",
    "missing prediction",
    "not predictive",
    "too vague",
    "overly vague",
    "impossible to validate",
    "cannot be validated",
    "not verifiable",
    "unverifiable",
    "heavy hedging",
    "quoting someone else",
    "is an announcement",
    "factual announcement" ]

/-- Decimal rendering of `q.toFixed(2)` used inside rejection reasons.
Ties round away from zero; the rendered value never feeds back into
control flow, only into human-readable reason strings. -/
def natFixed2 (n : Nat) : String :=
  toString (n / 100) ++ "." ++
    (if n % 100 < 10 then "0" ++ toString (n % 100) else toString (n % 100))

/-- JavaScript `Number.prototype.toFixed(2)` on a rational. -/
def ratToFixed2 (q : ℚ) : String :=
  if q < 0 then "-" ++ natFixed2 (Int.toNat ⌊(-q) * 100 + mkRat 1 2⌋)
  else natFixed2 (Int.toNat ⌊q * 100 + mkRat 1 2⌋)

/-- Check 1: timeframe sanity — start must not be after end (only when both
are present; JS `if (a && b)` with `Date`/`null` values). -/
def check1 (details : ParsedPredictionDetailsR) : Option String :=
  match details.timeframeStartUtc, details.timeframeEndUtc with
  | some s, some e =>
      if e < s then some "Invalid timeframe: start date is after end date" else none
  | _, _ => none

/-- Check 2: reject timeframe status `"missing"` (strict equality, so a null
status passes). -/
def check2 (details : ParsedPredictionDetailsR) : Option String :=
  if details.timeframeStatus = some "missing" then
    some "Timeframe status is \"missing\" - cannot determine validation timing"
  else none

/-- Check 3: scan the lower-cased filter reasoning for the invalid-keyword
list (JS truthiness: a null or empty reasoning skips the scan). -/
def check3 (details : ParsedPredictionDetailsR) : Option String :=
  match details.filterValidationReasoning with
  | none => none
  | some r =>
      if r = "" then none
      else if invalidKeywords.any (fun k => includesStr (lowerStr r) k) then
        some ("Filter stage marked as invalid: " ++ takeChars r 200)
      else none

/-- Check 4: filter validation confidence threshold (null passes). -/
def check4 (details : ParsedPredictionDetailsR) : Option String :=
  match details.filterValidationConfidence with
  | none => none
  | some confidence =>
      if confidence < FILTER_VALIDATION_CONFIDENCE_MIN then
        some ("Filter validation confidence too low: " ++ ratToFixed2 confidence ++
          " (threshold: 0.85)")
      else none

/-- Check 5: LLM confidence threshold (null passes). -/
def check5 (parsed : ParsedPredictionR) : Option String :=
  match parsed.llmConfidence with
  | none => none
  | some llmConfidence =>
      if llmConfidence < LLM_CONFIDENCE_MIN then
        some ("LLM confidence too low: " ++ ratToFixed2 llmConfidence ++
          " (threshold: 0.5)")
      else none

/-- Check 6: prediction quality threshold (null passes; the source compares
against the literal 30). -/
def check6 (parsed : ParsedPredictionR) : Option String :=
  match parsed.predictionQuality with
  | none => none
  | some q =>
      if q < 30 then
        some ("Prediction quality too low: " ++ toString q ++ " (threshold: 30)")
      else none

/-- Check 7: vagueness threshold (null passes). -/
def check7 (parsed : ParsedPredictionR) : Option String :=
  match parsed.vagueness with
  | none => none
  | some vagueness =>
      if VAGUENESS_MAX < vagueness then
        some ("Prediction too vague: " ++ ratToFixed2 vagueness ++ " (threshold: 0.8)")
      else none

/-- The first failing check, in source order (the source returns from the
first check that fails). -/
def preValidationFailure (p : PredictionToValidateR) : Option String :=
  match check1 p.parsedPredictionDetails with
  | some r => some r
  | none =>
  match check2 p.parsedPredictionDetails with
  | some r => some r
  | none =>
  match check3 p.parsedPredictionDetails with
  | some r => some r
  | none =>
  match check4 p.parsedPredictionDetails with
  | some r => some r
  | none =>
  match check5 p.parsedPrediction with
  | some r => some r
  | none =>
  match check6 p.parsedPrediction with
  | some r => some r
  | none =>
  match check7 p.parsedPrediction with
  | some r => some r
  | none => none

/-- Embedding of `shouldValidatePrediction` (validator.ts 89-208). -/
def shouldValidatePrediction (p : PredictionToValidateR) : PreValidationCheck :=
  match preValidationFailure p with
  | some reason => { shouldValidate := false, reason := some reason }
  | none => { shouldValidate := true, reason := none }

/-! ## SQL lease predicate (`getNextPredictionToValidate`, validator.ts 215-304)

The `WHERE` clause of the leaser, under SQL three-valued logic: a row is
returned only when every conjunct evaluates to true.  `hasResultRow` models
the `LEFT JOIN validation_result ... IS NULL` anti-join conjunct. -/

def sqlLeasePred (now : Int) (p : PredictionToValidateR) (hasResultRow : Bool) : Bool :=
  let d := p.parsedPredictionDetails
  let pp := p.parsedPrediction
  -- isNotNull(timeframeEndUtc) AND timeframeEndUtc <= now
  (match d.timeframeEndUtc with
   | none => false
   | some e => decide (e ≤ now)) &&
  -- isNull(validationResult.parsedPredictionId) after the left join
  (!hasResultRow) &&
  -- Filter 1: start IS NULL OR end IS NULL OR start <= end
  (match d.timeframeStartUtc, d.timeframeEndUtc with
   | none, _ => true
   | _, none => true
   | some s, some e => decide (s ≤ e)) &&
  -- Filter 2: timeframeStatus <> 'missing' (NULL is not true in SQL)
  (match d.timeframeStatus with
   | none => false
   | some st => decide (st ≠ "missing")) &&
  -- Filter 3: confidence IS NULL OR confidence >= 0.85
  (match d.filterValidationConfidence with
   | none => true
   | some c => decide (FILTER_VALIDATION_CONFIDENCE_MIN ≤ c)) &&
  -- Filter 4: quality IS NULL OR quality >= 30
  (match pp.predictionQuality with
   | none => true
   | some q => decide (PREDICTION_QUALITY_MIN ≤ q)) &&
  -- Filter 5: llmConfidence IS NULL OR llmConfidence >= 0.5
  (match pp.llmConfidence with
   | none => true
   | some c => decide (LLM_CONFIDENCE_MIN ≤ c)) &&
  -- Filter 6: vagueness IS NULL OR vagueness <= 0.8
  (match pp.vagueness with
   | none => true
   | some v => decide (v ≤ VAGUENESS_MAX))

/-! ## Claim C2: SQL pre-filter versus in-memory pre-filter -/

/-- A tuple that satisfies every conjunct of the leaser's SQL predicate but
whose `filter_validation_reasoning` contains the keyword
`"not a prediction"`, which only the in-memory pre-filter scans for. -/
def predC2 : PredictionToValidateR :=
  { parsedPrediction :=
      { id := "p-c2", predictionQuality := none, llmConfidence := none,
        vagueness := none },
    parsedPredictionDetails :=
      { parsedPredictionId := "p-c2", predictionContext := some "ctx",
        timeframeStatus := some "explicit", timeframeStartUtc := none,
        timeframeEndUtc := some 0, filterValidationConfidence := none,
        filterValidationReasoning := some "This is not a prediction" } }

/-- C2 counterexample: `predC2` passes the leaser's SQL `WHERE` clause (so
the leaser can return it) yet fails `shouldValidatePrediction`; the SQL
predicate and the in-memory pre-filter are not equivalent. -/
theorem C2_counterexample :
    sqlLeasePred 0 predC2 false = true ∧
      (shouldValidatePrediction predC2).shouldValidate = false := by
  constructor
  · decide
  · decide

/-- C2 amended: every tuple satisfying the leaser's SQL predicate passes all
in-memory checks except possibly the keyword scan of
`filter_validation_reasoning` (Check 3), which exists only in memory; in
particular any leased tuple on which the keyword scan is silent satisfies
`shouldValidate = true`. -/
theorem C2_amended_thm (now : Int) (p : PredictionToValidateR) (hasRow : Bool)
    (hsql : sqlLeasePred now p hasRow = true)
    (h3 : check3 p.parsedPredictionDetails = none) :
    (shouldValidatePrediction p).shouldValidate = true := by
  unfold sqlLeasePred at hsql
  simp only [Bool.and_eq_true] at hsql
  obtain ⟨⟨⟨⟨⟨⟨⟨hEnd, _hRow⟩, hTf⟩, hSt⟩, hConf⟩, hQ⟩, hLlm⟩, hVag⟩ := hsql
  have hc1 : check1 p.parsedPredictionDetails = none := by
    cases hs : p.parsedPredictionDetails.timeframeStartUtc with
    | none => simp [check1, hs]
    | some s =>
      cases he : p.parsedPredictionDetails.timeframeEndUtc with
      | none => rw [he] at hEnd; simp at hEnd
      | some e =>
        rw [hs, he] at hTf
        have hse : s ≤ e := by simpa using hTf
        simp [check1, hs, he, not_lt.mpr hse]
  have hc2 : check2 p.parsedPredictionDetails = none := by
    cases hst : p.parsedPredictionDetails.timeframeStatus with
    | none => rw [hst] at hSt; simp at hSt
    | some st =>
      rw [hst] at hSt
      have hne : st ≠ "missing" := by simpa using hSt
      simp [check2, hst, hne]
  have hc4 : check4 p.parsedPredictionDetails = none := by
    cases hcv : p.parsedPredictionDetails.filterValidationConfidence with
    | none => simp [check4, hcv]
    | some c =>
      rw [hcv] at hConf
      have hge : FILTER_VALIDATION_CONFIDENCE_MIN ≤ c := by simpa using hConf
      simp [check4, hcv, not_lt.mpr hge]
  have hc5 : check5 p.parsedPrediction = none := by
    cases hcv : p.parsedPrediction.llmConfidence with
    | none => simp [check5, hcv]
    | some c =>
      rw [hcv] at hLlm
      have hge : LLM_CONFIDENCE_MIN ≤ c := by simpa using hLlm
      simp [check5, hcv, not_lt.mpr hge]
  have hc6 : check6 p.parsedPrediction = none := by
    cases hcv : p.parsedPrediction.predictionQuality with
    | none => simp [check6, hcv]
    | some q =>
      rw [hcv] at hQ
      have hge : PREDICTION_QUALITY_MIN ≤ q := by simpa using hQ
      have : ¬ q < 30 := by
        simp only [PREDICTION_QUALITY_MIN] at hge
        omega
      simp [check6, hcv, this]
  have hc7 : check7 p.parsedPrediction = none := by
    cases hcv : p.parsedPrediction.vagueness with
    | none => simp [check7, hcv]
    | some v =>
      rw [hcv] at hVag
      have hle : v ≤ VAGUENESS_MAX := by simpa using hVag
      simp [check7, hcv, not_lt.mpr hle]
  have hfail : preValidationFailure p = none := by
    unfold preValidationFailure
    rw [hc1, hc2, h3, hc4, hc5, hc6, hc7]
  simp [shouldValidatePrediction, hfail]

/-- A tuple passing both the SQL predicate and every in-memory check. -/
def predW2 : PredictionToValidateR :=
  { parsedPrediction :=
      { id := "p-w2", predictionQuality := some 55, llmConfidence := some (mkRat 7 10),
        vagueness := some (mkRat 3 10) },
    parsedPredictionDetails :=
      { parsedPredictionId := "p-w2", predictionContext := some "ctx",
        timeframeStatus := some "explicit", timeframeStartUtc := some 10,
        timeframeEndUtc := some 20, filterValidationConfidence := some (mkRat 9 10),
        filterValidationReasoning := some "A clear, checkable claim" } }

/-- Witness for the amended C2 theorem at the concrete tuple `predW2`. -/
theorem C2_witness : (shouldValidatePrediction predW2).shouldValidate = true :=
  C2_amended_thm 100 predW2 false (by decide) (by decide)

/-! ## Search adapter (`searchMultiple`, src/search/searchapi.ts 70-116)

The HTTP interaction is modelled by a `FetchOutcome`: the fetch (or JSON
parse) throwing, a non-2xx response, or a decoded `SearchApiResponse`
body.  `searchMultiple` itself catches every failure and returns `[]`; it
never raises. -/

/-- A combined search result (`SearchResult` in searchapi.ts). -/
structure SearchResultR where
  url : String
  title : String
  excerpt : String
  pub_date : Option String
  deriving DecidableEq

/-- One entry of `organic_results` in the SearchAPI response body. -/
structure OrganicResult where
  link : Option String
  title : Option String
  snippet : Option String
  date : Option String
  deriving DecidableEq

/-- Decoded SearchAPI response body (`SearchApiResponse`). -/
structure SearchApiResponse where
  organic_results : Option (List OrganicResult)
  error : Option String
  deriving DecidableEq

/-- Outcome of one `fetch` of the SearchAPI endpoint. -/
inductive FetchOutcome where
  /-- `fetch` (or `response.json()`) threw; caught by the adapter. -/
  | throwEx (msg : String)
  /-- `response.ok` was false. -/
  | notOk (status : Nat) (statusText : String)
  /-- A decoded response body. -/
  | okResp (data : SearchApiResponse)
  deriving DecidableEq

/-- Embedding of `searchMultiple(query, maxResults)`: every failure path
returns the empty list; otherwise organic results with a truthy `link` are
mapped to `SearchResult`s and capped at `maxResults`. -/
def searchMultiple (fetch : FetchOutcome) (maxResults : Nat) : List SearchResultR :=
  match fetch with
  | .throwEx _ => []
  | .notOk _ _ => []
  | .okResp data =>
      if jsTruthyStr data.error then []
      else
        match data.organic_results with
        | none => []
        | some rs =>
            if rs.length = 0 then []
            else
              ((rs.filter (fun r => jsTruthyStr r.link)).map (fun r =>
                { url := r.link.getD "",
                  title := (match r.title with | some t => if t = "" then "" else t | none => ""),
                  excerpt := (match r.snippet with | some t => if t = "" then "" else t | none => ""),
                  pub_date := (match r.date with | some d => if d = "" then none else some d | none => none) })).take
                maxResults

/-! ## Result-judge data and outcome mapping (validator.ts 592-606)

`result-judge.ts` is an LLM adapter; the judgment record it produces is the
interface consumed by `validatePrediction`.  Optional string fields use the
empty string for "absent", matching the JS truthiness checks applied to
them. -/

/-- The judge's decision. -/
inductive Decision where
  | TRUE
  | FALSE
  | INCONCLUSIVE
  deriving DecidableEq

/-- The seven-valued outcome enum (`ValidationOutcome`). -/
inductive Outcome where
  | MaturedTrue
  | MaturedFalse
  | MaturedMostlyTrue
  | MaturedMostlyFalse
  | NotMatured
  | MissingContext
  | Invalid
  deriving DecidableEq

/-- A judgment returned by `ResultJudge.evaluate`. -/
structure Judgment where
  decision : Decision
  score : Int
  summary : String
  evidence : String
  reasoning : String
  sufficient : Bool
  nextQuerySuggestion : String
  inputTokens : Nat
  outputTokens : Nat
  deriving DecidableEq

/-- Embedding of the outcome-mapping step of `validatePrediction`
(validator.ts 592-606). -/
def outcomeFromJudgment (decision : Decision) (score : Int) : Outcome :=
  match decision with
  | .TRUE => if TRUE_DEFINITIVE_MIN ≤ score then .MaturedTrue else .MaturedMostlyTrue
  | .FALSE => if score ≤ FALSE_DEFINITIVE_MAX then .MaturedFalse else .MaturedMostlyFalse
  | .INCONCLUSIVE => .MissingContext

/-! ## Query enhancer (`src/llm/query-enhancer.ts`)

Chat-completion calls are external; the embedding represents each call's
outcome (`ChatOut` or a thrown error, which `openrouter.ts` rethrows) as an
oracle value.  The enhancer's own logic — issuing `min count 3` parallel
calls and normalising each reply — is embedded from the source. -/

/-- The `{content, inputTokens, outputTokens}` record of a chat call. -/
structure ChatOut where
  content : String
  inputTokens : Nat
  outputTokens : Nat
  deriving DecidableEq

/-- The fixed list of query "angles" in `enhanceMultiple`. -/
def queryAngles : List String :=
  [ "Generate a direct, factual search query focusing on the main claim",
    "Generate a query that would find news articles or reports about this claim",
    "Generate a query using alternative keywords or synonyms for the same claim" ]

/-- Quote characters stripped by the reply normalisation regex. -/
def isQuoteChar (c : Char) : Bool :=
  c = '"' ∨ c = Char.ofNat 39

/-- Embedding of `.replace(/^["']|["']$/g, "")`: drop one leading and one
trailing quote character. -/
def stripOuterQuotes (s : String) : String :=
  let l1 := match s.data with
    | c :: rest => if isQuoteChar c then rest else s.data
    | [] => []
  let l2 := match l1.reverse with
    | c :: rest => if isQuoteChar c then rest.reverse else l1
    | [] => l1
  ⟨l2⟩

/-- Embedding of `.replace(/\n.*/g, "")`: keep only the first line. -/
def firstLine (s : String) : String :=
  ⟨s.data.takeWhile (fun c => c ≠ '\n')⟩

/-- Reply normalisation: trim, strip one pair of outer quotes, first line. -/
def normalizeQuery (s : String) : String :=
  firstLine (stripOuterQuotes (jsTrim s))

/-- Result record of `enhanceMultiple`. -/
structure EnhanceMultipleResult where
  queries : List String
  totalInputTokens : Nat
  totalOutputTokens : Nat
  deriving DecidableEq

/-- Await a list of chat calls (`Promise.all`): the first rejection rejects
the whole batch. -/
def collectChats (chats : Nat → Except String ChatOut) : List Nat → Except String (List ChatOut)
  | [] => .ok []
  | i :: rest =>
      match chats i with
      | .error msg => .error msg
      | .ok c =>
          match collectChats chats rest with
          | .error msg => .error msg
          | .ok cs => .ok (c :: cs)

/-- Embedding of `QueryEnhancer.enhanceMultiple(text, count)`: issues
`min count 3` parallel chat calls (one per angle) and normalises each
reply. -/
def enhanceMultipleRun (chats : Nat → Except String ChatOut) (count : Nat) :
    Except String EnhanceMultipleResult :=
  match collectChats chats (List.range (min count queryAngles.length)) with
  | .error msg => .error msg
  | .ok rs =>
      .ok { queries := rs.map (fun r => normalizeQuery r.content),
            totalInputTokens := (rs.map (fun r => r.inputTokens)).sum,
            totalOutputTokens := (rs.map (fun r => r.outputTokens)).sum }

/-- Result record of `enhanceWithTokens`. -/
structure RefineResult where
  query : String
  inputTokens : Nat
  outputTokens : Nat
  deriving DecidableEq

/-- Embedding of `QueryEnhancer.enhanceWithTokens` (one chat call, same
normalisation). -/
def enhanceRefineRun (refineChat : Except String ChatOut) : Except String RefineResult :=
  match refineChat with
  | .error msg => .error msg
  | .ok r => .ok { query := normalizeQuery r.content,
                   inputTokens := r.inputTokens, outputTokens := r.outputTokens }

/-! ## The validation pipeline (`validatePrediction`, validator.ts 430-672)

External nondeterminism for one validation is collected in an `Env`: the
goal text the database-backed `extractGoalText` would return, the outcome
of each query-enhancement chat call, the HTTP outcome of each
`searchMultiple` call (numbered in call order: the initial fan-out uses
indices `0, 1, ...`, the refinement search uses the next index), the
outcome of each result-judge call (`0` = first judgment, `1` =
re-judgment) and of the refinement chat call.  The run returns the
`ValidationResult` together with a trace of externally visible events and,
for the claims, the first judgment and the judgment/combined list that
reached the mapping step. -/

/-- Externally visible events of one validation run. -/
inductive Ev where
  /-- One query-enhancement chat call. -/
  | enhanceChat
  /-- One `searchMultiple` call. -/
  | searchCall
  /-- One `ResultJudge.evaluate` call. -/
  | judgeCall
  /-- Entry into the refinement pass. -/
  | refineStart
  /-- The `writeCostLog` append / cost-tracker update. -/
  | costLog
  deriving DecidableEq

/-- A `ValidationResult` value as built by `validatePrediction`. -/
structure ValidationResultV where
  prediction_id : String
  outcome : Outcome
  proof : String
  sources : List SearchResultR
  deriving DecidableEq

/-- Oracle for the external effects of one validation. -/
structure Env where
  extractedGoalText : String
  enhanceChats : Nat → Except String ChatOut
  searchFetch : Nat → FetchOutcome
  judge : Nat → Except String Judgment
  refineChat : Except String ChatOut

/-- Output of one embedded `validatePrediction` run. -/
structure RunOut where
  result : ValidationResultV
  trace : List Ev
  judged1 : Option (Judgment × Nat)
  mapped : Option (Judgment × List SearchResultR)
  deriving DecidableEq

/-- The prediction text fed to the LLM:
`details.predictionContext || extractGoalText(...)` (JS `||`, so an empty
context falls back to the extracted goal text). -/
def resolvedPredictionText (env : Env) (p : PredictionToValidateR) : String :=
  match p.parsedPredictionDetails.predictionContext with
  | some t => if t = "" then env.extractedGoalText else t
  | none => env.extractedGoalText

/-- The result built by the catch-all branch (validator.ts 655-671).  Note
that the proof is NOT truncated here. -/
def invalidErrResult (predictionId msg : String) : ValidationResultV :=
  { prediction_id := predictionId, outcome := .Invalid,
    proof := "Validation error: " ++ msg, sources := [] }

/-- Proof construction of the normal path (validator.ts 608-618): summary,
optional evidence, optional reasoning, truncated to 700 characters. -/
def buildProof (j : Judgment) : String :=
  let p1 := if j.evidence ≠ "" then j.summary ++ "\n\n" ++ j.evidence else j.summary
  let p2 := if j.reasoning ≠ "" then p1 ++ "\n\nReasoning: " ++ j.reasoning else p1
  truncateText p2 700

/-- Source selection (validator.ts 644-647): top two combined results
unless the decision was INCONCLUSIVE. -/
def pickSources (j : Judgment) (combined : List SearchResultR) : List SearchResultR :=
  if j.decision ≠ .INCONCLUSIVE then combined.take 2 else []

/-- The mapping/formatting/cost-log tail of the normal path
(validator.ts 592-654). -/
def finishRun (predictionId : String) (j : Judgment) (combined : List SearchResultR)
    (tr : List Ev) (j1 : Judgment × Nat) : RunOut :=
  { result := { prediction_id := predictionId,
                outcome := outcomeFromJudgment j.decision j.score,
                proof := buildProof j,
                sources := pickSources j combined },
    trace := tr ++ [Ev.costLog],
    judged1 := some j1,
    mapped := some (j, combined) }

/-- The initial search fan-out: one `searchMultiple` call per enhanced
query, in order. -/
def initialSearchSets (env : Env) (n : Nat) : List (List SearchResultR) :=
  (List.range n).map (fun i => searchMultiple (env.searchFetch i) RESULTS_PER_QUERY)

/-- Embedding of `validatePrediction` (validator.ts 430-672). -/
def validatePredictionRun (env : Env) (p : PredictionToValidateR) : RunOut :=
  let predictionId := p.parsedPrediction.id
  let preCheck := shouldValidatePrediction p
  -- pre-filter rejection (438-446)
  if preCheck.shouldValidate = false then
    { result := { prediction_id := predictionId, outcome := .Invalid,
                  proof := preCheck.reason.getD "Prediction failed pre-validation checks",
                  sources := [] },
      trace := [], judged1 := none, mapped := none }
  else
    let predictionText := resolvedPredictionText env p
    -- empty prediction text (452-459)
    if predictionText = "" then
      { result := { prediction_id := predictionId, outcome := .Invalid,
                    proof := "Unable to extract prediction text", sources := [] },
        trace := [], judged1 := none, mapped := none }
    else
      -- try block (470-654); a thrown error lands in the catch (655-671)
      let trace0 := List.replicate (min INITIAL_QUERIES queryAngles.length) Ev.enhanceChat
      match enhanceMultipleRun env.enhanceChats INITIAL_QUERIES with
      | .error msg =>
          { result := invalidErrResult predictionId msg,
            trace := trace0, judged1 := none, mapped := none }
      | .ok initialQueryResult =>
          let resultSets := initialSearchSets env initialQueryResult.queries.length
          let trace1 := trace0 ++ List.replicate initialQueryResult.queries.length Ev.searchCall
          let combinedResults := resultSets.flatten
          -- empty combined list (505-512)
          if combinedResults = [] then
            { result := { prediction_id := predictionId, outcome := .MissingContext,
                          proof := "No search results found", sources := [] },
              trace := trace1, judged1 := none, mapped := none }
          else
            -- first judgment (518-521)
            match env.judge 0 with
            | .error msg =>
                { result := invalidErrResult predictionId msg,
                  trace := trace1 ++ [Ev.judgeCall], judged1 := none, mapped := none }
            | .ok judgment =>
                let trace2 := trace1 ++ [Ev.judgeCall]
                -- refinement pass (530-590)
                if judgment.sufficient = false ∧ combinedResults.length < MAX_TOTAL_RESULTS then
                  match enhanceRefineRun env.refineChat with
                  | .error msg =>
                      { result := invalidErrResult predictionId msg,
                        trace := trace2 ++ [Ev.refineStart, Ev.enhanceChat],
                        judged1 := some (judgment, combinedResults.length), mapped := none }
                  | .ok _refinedQueryResult =>
                      let refinedResults :=
                        searchMultiple (env.searchFetch initialQueryResult.queries.length)
                          RESULTS_PER_QUERY
                      let combined2 := combinedResults ++ refinedResults
                      let trace3 := trace2 ++ [Ev.refineStart, Ev.enhanceChat, Ev.searchCall]
                      match env.judge 1 with
                      | .error msg =>
                          { result := invalidErrResult predictionId msg,
                            trace := trace3 ++ [Ev.judgeCall],
                            judged1 := some (judgment, combinedResults.length), mapped := none }
                      | .ok judgment2 =>
                          finishRun predictionId judgment2 combined2 (trace3 ++ [Ev.judgeCall])
                            (judgment, combinedResults.length)
                else
                  finishRun predictionId judgment combinedResults trace2
                    (judgment, combinedResults.length)

/-! ## Storage (`validation_result` table)

The migration `drizzle/0001_create_validation_result.sql` creates the table
with `"id" UUID PRIMARY KEY` and a PLAIN index on `parsed_prediction_id`
(`CREATE INDEX ... ON "validation_result" ("parsed_prediction_id")`), and
`src/db/schema.ts` likewise declares `index(...)`, not `uniqueIndex(...)`.
Hence the only unique constraint on the table is the primary key, whose
value is a freshly generated uuid.  `INSERT ... ON CONFLICT DO NOTHING`
(drizzle's `.onConflictDoNothing()` with no target) skips the insert only
when some unique constraint would be violated — here, only a duplicate
`id`. -/

/-- A persisted `validation_result` row (the columns the core writes). -/
structure VRRow where
  rowId : Nat
  parsedPredictionId : String
  outcome : Outcome
  proof : String
  sources : List SearchResultR
  deriving DecidableEq

/-- `INSERT ... ON CONFLICT DO NOTHING` against the table's actual unique
constraints (primary key `id` only). -/
def insertOnConflictDoNothing (table : List VRRow) (row : VRRow) : List VRRow :=
  if table.any (fun r => r.rowId = row.rowId) then table else table ++ [row]

/-- The row built by `storeValidationResult` (validator.ts 389-405): proof
capped at 700 characters, sources capped at 5 entries, fresh `id`. -/
def mkVRRow (freshRowId : Nat) (result : ValidationResultV) : VRRow :=
  { rowId := freshRowId,
    parsedPredictionId := result.prediction_id,
    outcome := result.outcome,
    proof := takeChars result.proof 700,
    sources := result.sources.take 5 }

/-- Embedding of `storeValidationResult`. -/
def storeValidationResultDb (table : List VRRow) (freshRowId : Nat)
    (result : ValidationResultV) : List VRRow :=
  insertOnConflictDoNothing table (mkVRRow freshRowId result)

/-! ## Worker iteration (`runWorker`, the worker entry point, lines 142-194
of the active variant)

One loop iteration opens a transaction, leases a prediction (or finds
none), runs the pipeline inside the transaction, stores the result inside
the same transaction, and commits.  The trace interleaves the pipeline's
events between transaction begin and commit. -/

/-- Worker-level events. -/
inductive WEv where
  /-- `db.transaction` begins. -/
  | txBegin
  /-- `getNextPredictionToValidate` runs. -/
  | lease
  /-- A pipeline event (inside the open transaction). -/
  | pev (e : Ev)
  /-- `storeValidationResult` runs (inside the open transaction). -/
  | store
  /-- The transaction commits. -/
  | commit
  deriving DecidableEq

/-- Oracle for one worker iteration: what the leaser returns, the
pipeline's environment, and the fresh row id. -/
structure WEnv where
  leased : Option PredictionToValidateR
  env : Env
  freshRowId : Nat

/-- One iteration of the worker loop: final table state and event trace. -/
def workerIteration (wenv : WEnv) (table : List VRRow) : List VRRow × List WEv :=
  match wenv.leased with
  | none => (table, [WEv.txBegin, WEv.lease, WEv.commit])
  | some p =>
      let out := validatePredictionRun wenv.env p
      let table2 := storeValidationResultDb table wenv.freshRowId out.result
      (table2, [WEv.txBegin, WEv.lease] ++ out.trace.map WEv.pev ++ [WEv.store, WEv.commit])

/-! ## Concrete fixtures used by witnesses and counterexamples -/

/-- Boolean prefix test on the character lists of two strings. -/
def strHasPrefix (pre s : String) : Bool :=
  pre.data.isPrefixOf s.data

theorem listIsPrefixOf_append (l t : List Char) : l.isPrefixOf (l ++ t) = true := by
  induction l with
  | nil => simp [List.isPrefixOf]
  | cons c cs ih => simp [List.isPrefixOf, ih]

/-- A prediction tuple that passes every pre-validation check. -/
def predOK : PredictionToValidateR :=
  { parsedPrediction :=
      { id := "p-ok", predictionQuality := some 55, llmConfidence := none,
        vagueness := none },
    parsedPredictionDetails :=
      { parsedPredictionId := "p-ok",
        predictionContext := some "Bitcoin closes above 100000 in 2025",
        timeframeStatus := some "explicit", timeframeStartUtc := some 0,
        timeframeEndUtc := some 100, filterValidationConfidence := none,
        filterValidationReasoning := none } }

/-- A successful enhancement chat reply. -/
def chatOutOk : ChatOut := { content := "query", inputTokens := 10, outputTokens := 5 }

/-- One organic search hit. -/
def orgA : OrganicResult :=
  { link := some "https://example.com/a", title := some "A",
    snippet := some "excerpt a", date := some "2025-01-01" }

/-- A SearchAPI body carrying `orgA`. -/
def respA : SearchApiResponse := { organic_results := some [orgA], error := none }

/-- The `SearchResult` that `searchMultiple` builds from `orgA`. -/
def srcA : SearchResultR :=
  { url := "https://example.com/a", title := "A", excerpt := "excerpt a",
    pub_date := some "2025-01-01" }

/-- A sufficient TRUE judgment with score 10. -/
def judgTrue : Judgment :=
  { decision := .TRUE, score := 10, summary := "summary", evidence := "",
    reasoning := "", sufficient := true, nextQuerySuggestion := "",
    inputTokens := 100, outputTokens := 20 }

/-- An insufficient TRUE judgment with score 8. -/
def judgInsuff : Judgment :=
  { decision := .TRUE, score := 8, summary := "weak summary", evidence := "",
    reasoning := "", sufficient := false, nextQuerySuggestion := "try official site",
    inputTokens := 90, outputTokens := 15 }

/-- An environment in which everything succeeds on the first pass. -/
def envW : Env :=
  { extractedGoalText := "goal",
    enhanceChats := fun _ => .ok chatOutOk,
    searchFetch := fun _ => .okResp respA,
    judge := fun _ => .ok judgTrue,
    refineChat := .ok chatOutOk }

/-! ## Shape of a pipeline run

Every run either reaches the mapping step — in which case the whole output
is a `finishRun` on a non-empty combined list and the pre-filter passed —
or short-circuits with `mapped = none` and no sources. -/

theorem runOut_main (env : Env) (p : PredictionToValidateR) :
    (∃ j comb j1n tr,
        validatePredictionRun env p = finishRun p.parsedPrediction.id j comb tr j1n ∧
        comb ≠ [] ∧ (shouldValidatePrediction p).shouldValidate = true) ∨
    ((validatePredictionRun env p).mapped = none ∧
      (validatePredictionRun env p).result.sources = []) := by
  unfold validatePredictionRun
  dsimp only
  split
  · right; exact ⟨rfl, rfl⟩
  · rename_i hpre
    have hpre' : (shouldValidatePrediction p).shouldValidate = true := by
      revert hpre
      cases (shouldValidatePrediction p).shouldValidate <;> simp
    split
    · right; exact ⟨rfl, rfl⟩
    · split
      · right; exact ⟨rfl, rfl⟩
      · split
        · right; exact ⟨rfl, rfl⟩
        · rename_i hne
          split
          · right; exact ⟨rfl, rfl⟩
          · split
            · split
              · right; exact ⟨rfl, rfl⟩
              · split
                · right; exact ⟨rfl, rfl⟩
                · left
                  refine ⟨_, _, _, _, rfl, ?_, hpre'⟩
                  intro hcon
                  exact hne (List.append_eq_nil.mp hcon).1
            · left
              exact ⟨_, _, _, _, rfl, hne, hpre'⟩

/-! ## Claim C1: uniqueness of `validation_result` rows -/

/-- A result to be persisted twice for the same prediction id. -/
def resC1 : ValidationResultV :=
  { prediction_id := "p1", outcome := .MaturedTrue, proof := "proof", sources := [] }

/-- C1: evaluation at the failing input.  The table's only unique constraint
is the primary key (the migration creates a plain, non-unique index on
`parsed_prediction_id`), so two `storeValidationResult` calls for the same
prediction id — each with a fresh row id — both insert, leaving two rows
where the claim (and the repository's own architecture notes) promise
exactly one. -/
theorem C1_code_eval :
    ((storeValidationResultDb (storeValidationResultDb [] 0 resC1) 1 resC1).filter
        (fun r => r.parsedPredictionId == "p1")).length = 2 ∧
    ¬ ((storeValidationResultDb (storeValidationResultDb [] 0 resC1) 1 resC1).filter
        (fun r => r.parsedPredictionId == "p1")).length = 1 := by
  constructor
  · decide
  · decide

/-! ## Claim C3: the outcome-mapping table -/

/-- C3: the mapping step of `validatePrediction` is exactly the spec table:
whenever a judgment reaches the mapping step, the run's outcome is
`outcomeFromJudgment` of it, and `outcomeFromJudgment` realises
TRUE/score ≥ 9 → MaturedTrue, TRUE/score < 9 → MaturedMostlyTrue,
FALSE/score ≤ 2 → MaturedFalse, FALSE/score > 2 → MaturedMostlyFalse,
INCONCLUSIVE → MissingContext, with the stated boundary values. -/
theorem C3_thm :
    (∀ (env : Env) (p : PredictionToValidateR) (j : Judgment) (comb : List SearchResultR),
        (validatePredictionRun env p).mapped = some (j, comb) →
        (validatePredictionRun env p).result.outcome = outcomeFromJudgment j.decision j.score) ∧
    (∀ s : Int,
      outcomeFromJudgment .TRUE s =
        (if 9 ≤ s then .MaturedTrue else .MaturedMostlyTrue) ∧
      outcomeFromJudgment .FALSE s =
        (if s ≤ 2 then .MaturedFalse else .MaturedMostlyFalse) ∧
      outcomeFromJudgment .INCONCLUSIVE s = .MissingContext) ∧
    outcomeFromJudgment .TRUE 9 = .MaturedTrue ∧
    outcomeFromJudgment .TRUE 8 = .MaturedMostlyTrue ∧
    outcomeFromJudgment .FALSE 2 = .MaturedFalse ∧
    outcomeFromJudgment .FALSE 3 = .MaturedMostlyFalse := by
  refine ⟨?_, ?_, by decide, by decide, by decide, by decide⟩
  · intro env p j comb h
    rcases runOut_main env p with ⟨j', comb', j1n, tr, heq, _hne, _hpre⟩ | ⟨hmap, _⟩
    · rw [heq] at h ⊢
      simp only [finishRun, Option.some.injEq, Prod.mk.injEq] at h
      obtain ⟨hj, _hc⟩ := h
      subst hj
      rfl
    · rw [hmap] at h
      exact absurd h (by simp)
  · intro s
    refine ⟨?_, ?_, rfl⟩
    · simp [outcomeFromJudgment, TRUE_DEFINITIVE_MIN]
    · simp [outcomeFromJudgment, FALSE_DEFINITIVE_MAX]

/-- Witness for C3: the all-success environment reaches the mapping step
with `judgTrue` and the doubled search hit. -/
theorem C3_witness :
    (validatePredictionRun envW predOK).result.outcome =
      outcomeFromJudgment judgTrue.decision judgTrue.score :=
  C3_thm.1 envW predOK judgTrue [srcA, srcA] (by decide)

/-! ## Claim C5: the sources list -/

/-- C5: every produced result carries at most two sources; a pre-filter
rejection leaves them empty; once a judgment reaches the mapping step the
sources are empty exactly on INCONCLUSIVE and otherwise are the first two
combined results in order (at least one, since the combined list was
non-empty); and the row persisted by `storeValidationResult` obeys the same
bound of 2. -/
theorem C5_thm (env : Env) (p : PredictionToValidateR) (freshRowId : Nat) :
    (validatePredictionRun env p).result.sources.length ≤ 2 ∧
    ((shouldValidatePrediction p).shouldValidate = false →
      (validatePredictionRun env p).result.sources = []) ∧
    (∀ j comb, (validatePredictionRun env p).mapped = some (j, comb) →
      ((j.decision = .INCONCLUSIVE → (validatePredictionRun env p).result.sources = []) ∧
       (j.decision ≠ .INCONCLUSIVE →
         (validatePredictionRun env p).result.sources = comb.take 2 ∧
         1 ≤ (validatePredictionRun env p).result.sources.length))) ∧
    (mkVRRow freshRowId (validatePredictionRun env p).result).sources.length ≤ 2 := by
  have hlen : (validatePredictionRun env p).result.sources.length ≤ 2 := by
    rcases runOut_main env p with ⟨j, comb, j1n, tr, heq, _, _⟩ | ⟨_, hsrc⟩
    · rw [heq]
      simp only [finishRun, pickSources]
      split
      · simp [List.length_take]
      · simp
    · rw [hsrc]
      simp
  refine ⟨hlen, ?_, ?_, ?_⟩
  · intro hfail
    rcases runOut_main env p with ⟨j, comb, j1n, tr, _, _, hpre⟩ | ⟨_, hsrc⟩
    · rw [hpre] at hfail
      exact absurd hfail (by simp)
    · exact hsrc
  · intro j comb h
    rcases runOut_main env p with ⟨j', comb', j1n, tr, heq, hne, _⟩ | ⟨hmap, _⟩
    · rw [heq] at h ⊢
      simp only [finishRun, Option.some.injEq, Prod.mk.injEq] at h
      obtain ⟨hj, hc⟩ := h
      constructor
      · intro hinc
        simp [finishRun, pickSources, hj, hinc]
      · intro hninc
        constructor
        · simp [finishRun, pickSources, hj, hc, hninc]
        · simp only [finishRun, pickSources, hj, hc, if_pos hninc]
          have hlen0 : comb.length ≠ 0 := by
            intro h0
            rw [hc] at hne
            exact hne (List.length_eq_zero.mp h0)
          simp only [List.length_take]
          omega
    · rw [hmap] at h
      exact absurd h (by simp)
  · show ((validatePredictionRun env p).result.sources.take 5).length ≤ 2
    rw [List.length_take]
    omega

/-- Witness for C5: in the all-success environment the sources are the two
leading combined results. -/
theorem C5_witness :
    (validatePredictionRun envW predOK).result.sources = List.take 2 [srcA, srcA] ∧
      1 ≤ (validatePredictionRun envW predOK).result.sources.length :=
  ((C5_thm envW predOK 0).2.2.1 judgTrue [srcA, srcA] (by decide)).2 (by decide)

/-! ## Claim C6: empty combined list short-circuits before the judge -/

/-- C6: when the pre-filter passes, the text resolves, the enhancement
succeeds and every search in the fan-out comes back empty, the run returns
`MissingContext` with proof `"No search results found"` and no sources, and
the result judge is never invoked. -/
theorem C6_thm (env : Env) (p : PredictionToValidateR) (qr : EnhanceMultipleResult)
    (hpre : (shouldValidatePrediction p).shouldValidate = true)
    (htext : ¬ resolvedPredictionText env p = "")
    (henh : enhanceMultipleRun env.enhanceChats INITIAL_QUERIES = .ok qr)
    (hsearch : ∀ i, searchMultiple (env.searchFetch i) RESULTS_PER_QUERY = []) :
    (validatePredictionRun env p).result =
      { prediction_id := p.parsedPrediction.id, outcome := .MissingContext,
        proof := "No search results found", sources := [] } ∧
    Ev.judgeCall ∉ (validatePredictionRun env p).trace := by
  have hcomb : (initialSearchSets env qr.queries.length).flatten = [] := by
    simp [initialSearchSets, hsearch]
  unfold validatePredictionRun
  dsimp only
  rw [hpre, if_neg (show ¬ (true : Bool) = false by decide), if_neg htext, henh]
  dsimp only
  rw [if_pos hcomb]
  refine ⟨rfl, ?_⟩
  simp [List.mem_append, List.mem_replicate]

/-- An environment whose searches all return no organic results. -/
def envEmptySearch : Env :=
  { envW with searchFetch := fun _ => .okResp { organic_results := none, error := none } }

/-- The enhancement result the all-success chat oracle produces. -/
def qrW : EnhanceMultipleResult :=
  { queries := ["query", "query"], totalInputTokens := 20, totalOutputTokens := 10 }

/-- Witness for C6 at the empty-search environment. -/
theorem C6_witness :
    (validatePredictionRun envEmptySearch predOK).result =
      { prediction_id := predOK.parsedPrediction.id, outcome := .MissingContext,
        proof := "No search results found", sources := [] } :=
  (C6_thm envEmptySearch predOK qrW (by decide) (by decide) rfl
    (fun _ => rfl)).1

/-! ## Claim C8: refinement condition and call bounds -/

theorem collectChats_length (chats : Nat → Except String ChatOut) :
    ∀ (l : List Nat) (cs : List ChatOut), collectChats chats l = .ok cs → cs.length = l.length := by
  intro l
  induction l with
  | nil =>
    intro cs h
    simp only [collectChats, Except.ok.injEq] at h
    simp [← h]
  | cons i rest ih =>
    intro cs h
    simp only [collectChats] at h
    cases hc : chats i with
    | error msg => rw [hc] at h; simp at h
    | ok c =>
      rw [hc] at h
      cases hr : collectChats chats rest with
      | error msg => rw [hr] at h; simp at h
      | ok cs' =>
        rw [hr] at h
        simp only [Except.ok.injEq] at h
        subst h
        simp [ih cs' hr]

theorem enhanceMultipleRun_queries_length (chats : Nat → Except String ChatOut)
    (count : Nat) (r : EnhanceMultipleResult)
    (h : enhanceMultipleRun chats count = .ok r) :
    r.queries.length = min count queryAngles.length := by
  unfold enhanceMultipleRun at h
  cases hc : collectChats chats (List.range (min count queryAngles.length)) with
  | error msg => rw [hc] at h; simp at h
  | ok rs =>
    rw [hc] at h
    simp only [Except.ok.injEq] at h
    subst h
    simp [collectChats_length chats _ rs hc]

/-- C8: the refinement pass runs exactly when the first judgment was
insufficient and the combined count was below `MAX_TOTAL_RESULTS`, it runs
at most once, and every run makes at most
`INITIAL_QUERIES + MAX_REFINEMENT_ITERATIONS` (= 3) query-enhancement chat
calls, at most that many search calls, and at most two judgment calls. -/
theorem C8_thm (env : Env) (p : PredictionToValidateR) :
    ((validatePredictionRun env p).trace.count Ev.refineStart ≤ 1) ∧
    ((validatePredictionRun env p).trace.count Ev.enhanceChat ≤
      INITIAL_QUERIES + MAX_REFINEMENT_ITERATIONS) ∧
    ((validatePredictionRun env p).trace.count Ev.searchCall ≤
      INITIAL_QUERIES + MAX_REFINEMENT_ITERATIONS) ∧
    ((validatePredictionRun env p).trace.count Ev.judgeCall ≤ 2) ∧
    (∀ j1 n, (validatePredictionRun env p).judged1 = some (j1, n) →
      (Ev.refineStart ∈ (validatePredictionRun env p).trace ↔
        (j1.sufficient = false ∧ n < MAX_TOTAL_RESULTS))) ∧
    ((validatePredictionRun env p).judged1 = none →
      Ev.refineStart ∉ (validatePredictionRun env p).trace) := by
  have hmin : min INITIAL_QUERIES queryAngles.length = 2 := by decide
  unfold validatePredictionRun
  dsimp only
  split
  · refine ⟨by simp, by simp [INITIAL_QUERIES, MAX_REFINEMENT_ITERATIONS], by simp,
      by simp, ?_, by intro _; simp⟩
    intro j1 n h
    simp at h
  · split
    · refine ⟨by simp, by simp [INITIAL_QUERIES, MAX_REFINEMENT_ITERATIONS], by simp,
        by simp, ?_, by intro _; simp⟩
      intro j1 n h
      simp at h
    · split
      · refine ⟨?_, ?_, ?_, ?_, ?_, ?_⟩ <;>
          simp [hmin, List.count_replicate, INITIAL_QUERIES, MAX_REFINEMENT_ITERATIONS,
            List.mem_replicate]
      · rename_i qr henh
        have hqlen : qr.queries.length = 2 := by
          rw [enhanceMultipleRun_queries_length env.enhanceChats INITIAL_QUERIES qr henh]
          exact hmin
        split
        · refine ⟨?_, ?_, ?_, ?_, ?_, ?_⟩ <;>
            simp [hmin, hqlen, List.count_append, List.count_replicate,
              INITIAL_QUERIES, MAX_REFINEMENT_ITERATIONS, List.mem_append,
              List.mem_replicate]
        · split
          · refine ⟨?_, ?_, ?_, ?_, ?_, ?_⟩ <;>
              simp [hmin, hqlen, List.count_append, List.count_replicate,
                INITIAL_QUERIES, MAX_REFINEMENT_ITERATIONS, List.mem_append,
                List.mem_replicate]
          · rename_i judgment hjudge
            split
            · rename_i hcond
              split
              · refine ⟨?_, ?_, ?_, ?_, ?_, ?_⟩
                · simp [hmin, hqlen, List.count_append, List.count_replicate]
                · simp [hmin, hqlen, List.count_append, List.count_replicate,
                    INITIAL_QUERIES, MAX_REFINEMENT_ITERATIONS]
                · simp [hmin, hqlen, List.count_append, List.count_replicate,
                    INITIAL_QUERIES, MAX_REFINEMENT_ITERATIONS]
                · simp [hmin, hqlen, List.count_append, List.count_replicate]
                · intro j1 n h
                  simp only [Option.some.injEq, Prod.mk.injEq] at h
                  obtain ⟨hj, hn⟩ := h
                  refine iff_of_true (by simp) ⟨?_, ?_⟩
                  · rw [← hj]; exact hcond.1
                  · rw [← hn]; exact hcond.2
                · intro h; simp at h
              · split
                · refine ⟨?_, ?_, ?_, ?_, ?_, ?_⟩
                  · simp [hmin, hqlen, List.count_append, List.count_replicate]
                  · simp [hmin, hqlen, List.count_append, List.count_replicate,
                      INITIAL_QUERIES, MAX_REFINEMENT_ITERATIONS]
                  · simp [hmin, hqlen, List.count_append, List.count_replicate,
                      INITIAL_QUERIES, MAX_REFINEMENT_ITERATIONS]
                  · simp [hmin, hqlen, List.count_append, List.count_replicate]
                  · intro j1 n h
                    simp only [Option.some.injEq, Prod.mk.injEq] at h
                    obtain ⟨hj, hn⟩ := h
                    refine iff_of_true (by simp) ⟨?_, ?_⟩
                    · rw [← hj]; exact hcond.1
                    · rw [← hn]; exact hcond.2
                  · intro h; simp at h
                · refine ⟨?_, ?_, ?_, ?_, ?_, ?_⟩
                  · simp [finishRun, hmin, hqlen, List.count_append, List.count_replicate]
                  · simp [finishRun, hmin, hqlen, List.count_append, List.count_replicate,
                      INITIAL_QUERIES, MAX_REFINEMENT_ITERATIONS]
                  · simp [finishRun, hmin, hqlen, List.count_append, List.count_replicate,
                      INITIAL_QUERIES, MAX_REFINEMENT_ITERATIONS]
                  · simp [finishRun, hmin, hqlen, List.count_append, List.count_replicate]
                  · intro j1 n h
                    simp only [finishRun, Option.some.injEq, Prod.mk.injEq] at h
                    obtain ⟨hj, hn⟩ := h
                    refine iff_of_true (by simp [finishRun]) ⟨?_, ?_⟩
                    · rw [← hj]; exact hcond.1
                    · rw [← hn]; exact hcond.2
                  · intro h; simp [finishRun] at h
            · rename_i hcond
              refine ⟨?_, ?_, ?_, ?_, ?_, ?_⟩
              · simp [finishRun, hmin, hqlen, List.count_append, List.count_replicate]
              · simp [finishRun, hmin, hqlen, List.count_append, List.count_replicate,
                  INITIAL_QUERIES, MAX_REFINEMENT_ITERATIONS]
              · simp [finishRun, hmin, hqlen, List.count_append, List.count_replicate,
                  INITIAL_QUERIES, MAX_REFINEMENT_ITERATIONS]
              · simp [finishRun, hmin, hqlen, List.count_append, List.count_replicate]
              · intro j1 n h
                simp only [finishRun, Option.some.injEq, Prod.mk.injEq] at h
                obtain ⟨hj, hn⟩ := h
                refine iff_of_false ?_ ?_
                · simp [finishRun, List.mem_append, List.mem_replicate]
                · rw [← hj, ← hn]; exact hcond
              · intro h; simp [finishRun] at h

/-- An environment whose first judgment is insufficient, triggering the
refinement pass. -/
def envR : Env :=
  { envW with judge := fun i => if i = 0 then .ok judgInsuff else .ok judgTrue }

/-- Witness for C8: with an insufficient first judgment over 2 results the
refinement pass runs. -/
theorem C8_witness : Ev.refineStart ∈ (validatePredictionRun envR predOK).trace :=
  ((C8_thm envR predOK).2.2.2.2.1 judgInsuff 2 (by decide)).mpr (by decide)

/-! ## Claim C7: adapter failures -/

/-- An environment whose searches throw inside the adapter. -/
def envSearchThrow : Env :=
  { envW with searchFetch := fun _ => .throwEx "network failure" }

/-- C7 counterexample: a failing web-search call does NOT surface as an
`Invalid` outcome.  The search adapter catches its own exception and
returns `[]`, so a validation whose every search throws ends in
`MissingContext` with proof `"No search results found"`. -/
theorem C7_counterexample :
    envSearchThrow.searchFetch 0 = FetchOutcome.throwEx "network failure" ∧
    (validatePredictionRun envSearchThrow predOK).result.outcome = Outcome.MissingContext ∧
    ¬ (validatePredictionRun envSearchThrow predOK).result.outcome = Outcome.Invalid ∧
    strHasPrefix "Validation error: "
      (validatePredictionRun envSearchThrow predOK).result.proof = false := by
  refine ⟨rfl, ?_, ?_, ?_⟩
  · decide
  · decide
  · decide

/-- C7 amended: an exception from the LLM chat adapter (here: the first
judge call, which `openrouter.ts` lets propagate) makes `validatePrediction`
return `Invalid` with proof `"Validation error: <msg>"`, and the worker
still stores that result inside the transaction and commits; the web-search
adapter, by contrast, never lets an exception propagate — `searchMultiple`
maps every failure to the empty result list. -/
theorem C7_amended_thm (wenv : WEnv) (table : List VRRow) (p : PredictionToValidateR)
    (msg : String) (qr : EnhanceMultipleResult)
    (hleased : wenv.leased = some p)
    (hpre : (shouldValidatePrediction p).shouldValidate = true)
    (htext : ¬ resolvedPredictionText wenv.env p = "")
    (henh : enhanceMultipleRun wenv.env.enhanceChats INITIAL_QUERIES = .ok qr)
    (hne : ¬ (initialSearchSets wenv.env qr.queries.length).flatten = [])
    (hjudge : wenv.env.judge 0 = .error msg)
    (hfresh : ∀ r ∈ table, ¬ r.rowId = wenv.freshRowId) :
    (∀ m n, searchMultiple (FetchOutcome.throwEx m) n = []) ∧
    (validatePredictionRun wenv.env p).result = invalidErrResult p.parsedPrediction.id msg ∧
    strHasPrefix "Validation error: "
      (validatePredictionRun wenv.env p).result.proof = true ∧
    mkVRRow wenv.freshRowId (invalidErrResult p.parsedPrediction.id msg) ∈
      (workerIteration wenv table).1 ∧
    (workerIteration wenv table).2 =
      [WEv.txBegin, WEv.lease] ++ (validatePredictionRun wenv.env p).trace.map WEv.pev ++
        [WEv.store, WEv.commit] := by
  have hres : (validatePredictionRun wenv.env p).result =
      invalidErrResult p.parsedPrediction.id msg := by
    unfold validatePredictionRun
    dsimp only
    rw [hpre, if_neg (show ¬ (true : Bool) = false by decide), if_neg htext, henh]
    dsimp only
    rw [if_neg hne, hjudge]
  refine ⟨fun m n => rfl, hres, ?_, ?_, ?_⟩
  · rw [hres]
    show ("Validation error: " : String).data.isPrefixOf
      (("Validation error: " : String).data ++ msg.data) = true
    exact listIsPrefixOf_append _ _
  · unfold workerIteration
    rw [hleased]
    dsimp only
    rw [hres]
    show mkVRRow wenv.freshRowId (invalidErrResult p.parsedPrediction.id msg) ∈
      insertOnConflictDoNothing table (mkVRRow wenv.freshRowId (invalidErrResult p.parsedPrediction.id msg))
    unfold insertOnConflictDoNothing
    rw [if_neg]
    · simp
    · simp only [List.any_eq_true, decide_eq_true_eq]
      rintro ⟨r, hr, hid⟩
      exact hfresh r hr (by simp [mkVRRow] at hid; exact hid)
  · unfold workerIteration
    rw [hleased]

/-- An environment whose judge calls throw with a short message. -/
def envJudgeErr : Env :=
  { envW with judge := fun _ => .error "LLM 500" }

/-- Worker oracle for the C7 witness. -/
def wenvC7 : WEnv := { leased := some predOK, env := envJudgeErr, freshRowId := 0 }

/-- Witness for the amended C7 theorem: the Invalid row produced by a
throwing judge call is persisted by the worker iteration. -/
theorem C7_witness :
    mkVRRow 0 (invalidErrResult "p-ok" "LLM 500") ∈ (workerIteration wenvC7 []).1 :=
  (C7_amended_thm wenvC7 [] predOK "LLM 500" qrW rfl (by decide) (by decide) rfl
    (by decide) rfl (by simp)).2.2.2.1

/-! ## Claim C9: cost-log ordering relative to the commit -/

theorem commitPos_aux (M : List WEv) (hM : ∀ x ∈ M, ¬ x = WEv.commit) :
    ∀ (j : Nat), (M ++ [WEv.store, WEv.commit]).get? j = some WEv.commit →
      j = M.length + 1 := by
  induction M with
  | nil =>
    intro j h
    match j with
    | 0 => simp [List.get?] at h
    | 1 => simp
    | (k+2) => simp [List.get?] at h
  | cons x xs ih =>
    intro j h
    match j with
    | 0 =>
      simp [List.get?] at h
      exact absurd h (hM x (by simp))
    | (k+1) =>
      have hk := ih (fun y hy => hM y (by simp [hy])) k (by simpa [List.get?] using h)
      simp [List.length_cons, hk]

theorem pevPos_aux (M : List WEv) :
    ∀ (e : Ev) (i : Nat), (M ++ [WEv.store, WEv.commit]).get? i = some (WEv.pev e) →
      i < M.length := by
  induction M with
  | nil =>
    intro e i h
    match i with
    | 0 => simp [List.get?] at h
    | 1 => simp [List.get?] at h
    | (k+2) => simp [List.get?] at h
  | cons x xs ih =>
    intro e i h
    match i with
    | 0 => simp
    | (k+1) =>
      have hk := ih e k (by simpa [List.get?] using h)
      simp only [List.length_cons]
      omega

/-- Worker oracle for the C9 counterexample: the all-success environment. -/
def wenvC9 : WEnv := { leased := some predOK, env := envW, freshRowId := 0 }

/-- C9 counterexample: in a successful worker iteration the cost-log append
(position 7 of the trace) happens strictly BEFORE the unique transaction
commit (position 9); the claim that it happens only after the commit is
false. -/
theorem C9_counterexample :
    ((workerIteration wenvC9 []).2).get? 7 = some (WEv.pev Ev.costLog) ∧
    ((workerIteration wenvC9 []).2).get? 9 = some WEv.commit ∧
    ((workerIteration wenvC9 []).2).count WEv.commit = 1 ∧
    (7 : Nat) < 9 := by
  refine ⟨by decide, by decide, by decide, by decide⟩

/-- C9 amended: the cost-log append / cost-tracker update of a validation
happens inside the open transaction — in every worker-iteration trace each
cost-log event occurs strictly before the commit. -/
theorem C9_amended_thm (wenv : WEnv) (table : List VRRow) (i j : Nat)
    (hi : ((workerIteration wenv table).2).get? i = some (WEv.pev Ev.costLog))
    (hj : ((workerIteration wenv table).2).get? j = some WEv.commit) : i < j := by
  cases hl : wenv.leased with
  | none =>
    unfold workerIteration at hi
    rw [hl] at hi
    dsimp only at hi
    match i with
    | 0 => simp [List.get?] at hi
    | 1 => simp [List.get?] at hi
    | 2 => simp [List.get?] at hi
    | (k+3) => simp [List.get?] at hi
  | some p =>
    unfold workerIteration at hi hj
    rw [hl] at hi hj
    dsimp only at hi hj
    have hM : ∀ x ∈ [WEv.txBegin, WEv.lease] ++
        ((validatePredictionRun wenv.env p).trace.map WEv.pev), ¬ x = WEv.commit := by
      intro x hx
      simp only [List.mem_append, List.mem_cons, List.not_mem_nil, or_false,
        List.mem_map] at hx
      rcases hx with (rfl | rfl) | ⟨e, _, rfl⟩ <;> simp
    have hj' := commitPos_aux _ hM j hj
    have hi' := pevPos_aux _ Ev.costLog i hi
    simp only [List.length_append, List.length_map, List.length_cons,
      List.length_nil] at hi' hj'
    omega

/-- Witness for the amended C9 theorem at the concrete successful trace. -/
theorem C9_witness : (7 : Nat) < 9 :=
  C9_amended_thm wenvC9 [] 7 9 (by decide) (by decide)

/-! ## Claim C4: the 700-character proof bound -/

/-- A 700-character error message. -/
def msgLong : String := ⟨List.replicate 700 '@'⟩

/-- An environment whose judge call throws with the 700-character message. -/
def envLongErr : Env :=
  { envW with judge := fun _ => .error msgLong }

set_option maxRecDepth 4000 in
/-- C4: evaluation at the failing input.  The catch-all branch of
`validatePrediction` builds `"Validation error: " + message` WITHOUT
truncation, so with a 700-character error message the returned proof has
718 characters, violating the claimed 700-character bound (which the code's
own `ValidationResultSchema` declares via `.max(700)`). -/
theorem C4_code_eval :
    (validatePredictionRun envLongErr predOK).result.outcome = Outcome.Invalid ∧
    (validatePredictionRun envLongErr predOK).result.proof.length = 718 ∧
    700 < (validatePredictionRun envLongErr predOK).result.proof.length := by
  have hres : (validatePredictionRun envLongErr predOK).result =
      invalidErrResult "p-ok" msgLong := rfl
  have hlen : (invalidErrResult "p-ok" msgLong).proof.length = 718 := by
    show ("Validation error: " ++ msgLong).length = 718
    rw [strLength_append]
    show 18 + (List.replicate 700 '@').length = 718
    rw [List.length_replicate]
  rw [hres]
  refine ⟨rfl, hlen, ?_⟩
  rw [hlen]
  decide
